import Mathlib

/-!
Shallow embedding of the travlyng backend's Plan Aggregate & Polymorphic
Search subsystem (src/backend/src/travel_plans.rs and src/backend/src/search.rs).

The SQLite storage is modelled as lists of rows held in a `DBState`; a SQL
statement over a table becomes a list traversal (SELECT with WHERE = filter,
UPDATE = map, DELETE = filter-out).  rowids are modelled by per-table
counters; `last_insert_rowid` is the id just assigned, read under the same
exclusive lock as the insert.  External statement failures (storage
unavailable, row-decode errors) are modelled by explicit Boolean failure
parameters: each handler takes the failure outcome of its fallible statement
points as an argument, and claims about the pure logic instantiate them with
`false`.  HTTP responses are modelled by `Except RepoError`: 404 NotFound
becomes `.error .notFound`, 500 InternalServerError becomes
`.error .persistenceError`, the 2xx bodies become `.ok`.  Mutating handlers
return the resulting `DBState` alongside the response.
-/

/-- Error taxonomy of the repository layer: `notFound` models the 404
responses, `persistenceError` models the 500 responses raised on statement
preparation/execution failure. -/
inductive RepoError where
  | notFound
  | persistenceError
deriving Repr, DecidableEq

/-- A stored row of the `travel_plans` table: `id, name, start_date, end_date`. -/
structure PlanRow where
  id : Int
  name : String
  start_date : Option String
  end_date : Option String
deriving Repr, DecidableEq

/-- A stored row of the `plan_items` table:
`id, plan_id, entity_type, entity_id, visit_date, notes`. -/
structure ItemRow where
  id : Int
  plan_id : Int
  entity_type : String
  entity_id : Int
  visit_date : Option String
  notes : Option String
deriving Repr, DecidableEq

/-- The `PlanItem` JSON shape from travel_plans.rs (`id` is optional there:
requests may omit it, responses carry `Some`). -/
structure PlanItem where
  id : Option Int
  plan_id : Int
  entity_type : String
  entity_id : Int
  visit_date : Option String
  notes : Option String
deriving Repr, DecidableEq

/-- The `PlanItemRequest` JSON shape (POST/PUT bodies for plan items). -/
structure PlanItemRequest where
  entity_type : String
  entity_id : Int
  visit_date : Option String
  notes : Option String
deriving Repr, DecidableEq

/-- The `TravelPlan` JSON shape: `items` is `Option` and is only populated
when fetching a single plan. -/
structure TravelPlan where
  id : Option Int
  name : String
  start_date : Option String
  end_date : Option String
  items : Option (List PlanItem)
deriving Repr, DecidableEq

/-- The SQLite database state behind the shared connection: the two related
tables plus the rowid counters used for id assignment on INSERT. -/
structure DBState where
  plans : List PlanRow
  items : List ItemRow
  next_plan_rowid : Int
  next_item_rowid : Int
deriving Repr, DecidableEq

/-- Modelled from the spec: schema.sql is not under src/.  Per the spec,
`plan_items.plan_id` carries a foreign key to `travel_plans.id`, so an INSERT
into `plan_items` is rejected by the storage layer when `plan_id` references
no existing plan.  This predicate decides whether the parent exists. -/
def fkParentExists (db : DBState) (plan_id : Int) : Bool :=
  db.plans.any (fun r => r.id == plan_id)

/-- Modelled from the spec: schema.sql is not under src/.  Per the spec, the
foreign key from `plan_items.plan_id` to `travel_plans.id` is configured to
cascade on delete: every `plan_items` row whose parent plan row is deleted is
removed by the storage layer in the same deletion. -/
def cascadeItems (deletedPlans : List PlanRow) (items : List ItemRow) : List ItemRow :=
  items.filter (fun it => !(deletedPlans.any (fun pl => pl.id == it.plan_id)))

/-- Conversion applied by `get_plan`'s row-mapping closure for the second
query: a stored `plan_items` row becomes the `PlanItem` JSON shape. -/
def rowToPlanItem (r : ItemRow) : PlanItem :=
  { id := some r.id, plan_id := r.plan_id, entity_type := r.entity_type,
    entity_id := r.entity_id, visit_date := r.visit_date, notes := r.notes }

/-- The loop over `get_plan`'s item iterator: row `n + i` of the result set
either decodes (and is pushed onto the accumulator) or fails to decode
(`rowFail i = true`), in which case the error is logged and the row skipped. -/
def readRows {α : Type} (rowFail : Nat → Bool) : Nat → List α → List α
  | _, [] => []
  | i, r :: rs =>
    if rowFail i then readRows rowFail (i + 1) rs
    else r :: readRows rowFail (i + 1) rs

/-- `add_plan` (POST /plans): INSERT name/start_date/end_date into
`travel_plans`; on success set `plan.id` to `last_insert_rowid()` and echo the
(mutated) request body back; on execution failure return 500.  `execFail`
models the INSERT statement being rejected by storage. -/
def add_plan (db : DBState) (execFail : Bool) (plan : TravelPlan) :
    Except RepoError TravelPlan × DBState :=
  if execFail then (.error .persistenceError, db)
  else
    let rid := db.next_plan_rowid
    (.ok { plan with id := some rid },
     { db with
        plans := db.plans ++ [{ id := rid, name := plan.name,
                                start_date := plan.start_date,
                                end_date := plan.end_date }],
        next_plan_rowid := rid + 1 })

/-- `get_plan` (GET /plans/{id}): `query_row` on `travel_plans` (first row
matching `id`; no row at all is `QueryReturnedNoRows`, mapped to 404;
`planQueryFail` models any other query_row error, mapped to 500), then a
second query selecting all `plan_items` with this `plan_id`, appending each
successfully decoded row to the plan's `items` vector and skipping rows whose
decode fails (`rowFail`). -/
def get_plan (db : DBState) (planQueryFail : Bool) (rowFail : Nat → Bool)
    (plan_id : Int) : Except RepoError TravelPlan :=
  if planQueryFail then .error .persistenceError
  else
    match db.plans.find? (fun r => r.id == plan_id) with
    | none => .error .notFound
    | some pr =>
        .ok { id := some pr.id, name := pr.name, start_date := pr.start_date,
              end_date := pr.end_date,
              items := some (readRows rowFail 0
                ((db.items.filter (fun it => it.plan_id == plan_id)).map rowToPlanItem)) }

/-- `update_plan` (PUT /plans/{id}): UPDATE name/start_date/end_date WHERE
`id = plan_id`; 500 on execution failure; 404 when zero rows were updated;
otherwise 200 with a response constructed from the inputs, `items := none`. -/
def update_plan (db : DBState) (execFail : Bool) (plan_id : Int)
    (plan : TravelPlan) : Except RepoError TravelPlan × DBState :=
  if execFail then (.error .persistenceError, db)
  else
    let updated_rows := (db.plans.filter (fun r => r.id == plan_id)).length
    let db' := { db with
      plans := db.plans.map (fun r =>
        if r.id == plan_id then
          { r with name := plan.name, start_date := plan.start_date,
                   end_date := plan.end_date }
        else r) }
    if updated_rows == 0 then (.error .notFound, db')
    else
      (.ok { id := some plan_id, name := plan.name, start_date := plan.start_date,
             end_date := plan.end_date, items := none }, db')

/-- `delete_plan` (DELETE /plans/{id}): DELETE FROM `travel_plans` WHERE
`id = plan_id`; the storage layer's cascade rule (see `cascadeItems`) removes
the items of every deleted plan row; 500 on execution failure; 404 when zero
rows were deleted; otherwise 204. -/
def delete_plan (db : DBState) (execFail : Bool) (plan_id : Int) :
    Except RepoError Unit × DBState :=
  if execFail then (.error .persistenceError, db)
  else
    let deleted := db.plans.filter (fun r => r.id == plan_id)
    let db' := { db with
      plans := db.plans.filter (fun r => !(r.id == plan_id)),
      items := cascadeItems deleted db.items }
    if deleted.length == 0 then (.error .notFound, db')
    else (.ok (), db')

/-- `add_plan_item` (POST /plans/{plan_id}/items): INSERT into `plan_items`.
The statement is rejected (500) either on an external execution failure
(`execFail`) or by the foreign-key constraint when `plan_id` references no
plan (`fkParentExists`); the handler does not pre-check the parent and does
not distinguish the two.  On success set `id` to `last_insert_rowid()` and
return the new item. -/
def add_plan_item (db : DBState) (execFail : Bool) (plan_id : Int)
    (item_req : PlanItemRequest) : Except RepoError PlanItem × DBState :=
  if execFail || !(fkParentExists db plan_id) then (.error .persistenceError, db)
  else
    let rid := db.next_item_rowid
    (.ok { id := some rid, plan_id := plan_id, entity_type := item_req.entity_type,
           entity_id := item_req.entity_id, visit_date := item_req.visit_date,
           notes := item_req.notes },
     { db with
        items := db.items ++ [{ id := rid, plan_id := plan_id,
                                entity_type := item_req.entity_type,
                                entity_id := item_req.entity_id,
                                visit_date := item_req.visit_date,
                                notes := item_req.notes }],
        next_item_rowid := rid + 1 })

/-- `update_plan_item` (PUT /plans/{plan_id}/items/{item_id}): UPDATE
`plan_items` WHERE `id = item_id AND plan_id = plan_id`; 500 on execution
failure; 404 when zero rows were updated; otherwise 200 with a `PlanItem`
constructed from the call's inputs (no re-read of the stored row). -/
def update_plan_item (db : DBState) (execFail : Bool) (plan_id item_id : Int)
    (item_req : PlanItemRequest) : Except RepoError PlanItem × DBState :=
  if execFail then (.error .persistenceError, db)
  else
    let updated_rows :=
      (db.items.filter (fun r => r.id == item_id && r.plan_id == plan_id)).length
    let db' := { db with
      items := db.items.map (fun r =>
        if r.id == item_id && r.plan_id == plan_id then
          { r with entity_type := item_req.entity_type,
                   entity_id := item_req.entity_id,
                   visit_date := item_req.visit_date,
                   notes := item_req.notes }
        else r) }
    if updated_rows == 0 then (.error .notFound, db')
    else
      (.ok { id := some item_id, plan_id := plan_id,
             entity_type := item_req.entity_type, entity_id := item_req.entity_id,
             visit_date := item_req.visit_date, notes := item_req.notes }, db')

/-- `delete_plan_item` (DELETE /plans/{plan_id}/items/{item_id}): DELETE FROM
`plan_items` WHERE `id = item_id AND plan_id = plan_id`; 500 on execution
failure; 404 when zero rows were deleted; otherwise 204. -/
def delete_plan_item (db : DBState) (execFail : Bool) (plan_id item_id : Int) :
    Except RepoError Unit × DBState :=
  if execFail then (.error .persistenceError, db)
  else
    let deleted_rows :=
      (db.items.filter (fun r => r.id == item_id && r.plan_id == plan_id)).length
    let db' := { db with
      items := db.items.filter (fun r => !(r.id == item_id && r.plan_id == plan_id)) }
    if deleted_rows == 0 then (.error .notFound, db')
    else (.ok (), db')

/-! ## Search aggregator (src/backend/src/search.rs) -/

/-- A row of the `places` / `accommodations` / `restaurants` tables, as
selected by search.rs: `id, name, description, location`. -/
structure EntityRow where
  id : Int
  name : String
  description : Option String
  location : Option String
deriving Repr, DecidableEq

/-- The `SearchResultItem` JSON shape from search.rs. -/
structure SearchResultItem where
  id : Int
  name : String
  entity_type : String
  description : Option String
  location : Option String
deriving Repr, DecidableEq

/-- The three leaf-entity tables the search fans out over. -/
structure Stores where
  places : List EntityRow
  accommodations : List EntityRow
  restaurants : List EntityRow
deriving Repr, DecidableEq

/-- Whether `pat` occurs as a contiguous run inside `l`. -/
def listHasInfix {α : Type} [DecidableEq α] (l pat : List α) : Bool :=
  match l with
  | [] => pat.isEmpty
  | _ :: tl => pat.isPrefixOf l || listHasInfix tl pat

/-- Substring containment on strings (via their character lists). -/
def strContains (hay needle : String) : Bool :=
  listHasInfix hay.data needle.data

/-- The WHERE predicate of search.rs's three sub-queries,
`name LIKE '%q%' OR description LIKE '%q%'`: the row matches when `name` or
`description` contains `q` as a substring; a NULL `description` never
matches.  The LIKE pattern is `format!("%\x7b\x7d%", params.q)` over a list-modelled
table; SQLite's ASCII case-folding and its reading of wildcard characters
inside `q` sit below the granularity of this embedding. -/
def likeMatch (q : String) (r : EntityRow) : Bool :=
  strContains r.name q ||
    (match r.description with
     | some d => strContains d q
     | none => false)

/-- The row-mapping closure of each sub-query: tag the hit with the kind of
the table it came from. -/
def tagWith (kind : String) (r : EntityRow) : SearchResultItem :=
  { id := r.id, name := r.name, entity_type := kind,
    description := r.description, location := r.location }

/-- `search_entities` (GET /search?q=): three sub-queries, one per table, in
the fixed order places, accommodations, restaurants, each pushing its hits
onto the shared `results` vector.  `failAt i` models sub-query `i` failing to
prepare or execute; the source unwraps such a failure, aborting the whole
request with no partial result (surfaced as a 500-class failure, modelled as
`persistenceError`). -/
def search_entities (st : Stores) (failAt : Nat → Bool) (q : String) :
    Except RepoError (List SearchResultItem) :=
  if failAt 0 then .error .persistenceError
  else
    let results := (st.places.filter (likeMatch q)).map (tagWith "place")
    if failAt 1 then .error .persistenceError
    else
      let results := results ++
        (st.accommodations.filter (likeMatch q)).map (tagWith "accommodation")
      if failAt 2 then .error .persistenceError
      else
        let results := results ++
          (st.restaurants.filter (likeMatch q)).map (tagWith "restaurant")
        .ok results

/-! ## Helper lemmas -/

theorem readRows_sublist {α : Type} (f : Nat → Bool) (n : Nat) (l : List α) :
    (readRows f n l).Sublist l := by
  induction l generalizing n with
  | nil => exact List.Sublist.refl _
  | cons a tl ih =>
      unfold readRows
      by_cases h : f n = true
      · rw [if_pos h]; exact List.Sublist.cons a (ih (n + 1))
      · rw [if_neg h]; exact List.Sublist.cons₂ a (ih (n + 1))

theorem readRows_all_ok {α : Type} (f : Nat → Bool) (hf : ∀ i, f i = false)
    (n : Nat) (l : List α) : readRows f n l = l := by
  induction l generalizing n with
  | nil => rfl
  | cons a tl ih => unfold readRows; rw [hf n]; simp [ih]

/-! ## C1 -/

/-- C1: for every plan row `P` present in the database, `delete_plan P.id`
succeeds, and afterwards `get_plan P.id` returns NotFound (for every item-row
decode schedule) and no `plan_items` row with `plan_id = P.id` remains in the
database, so no query can retrieve such an item: the cascade removes all of
the plan's items together with the plan. -/
theorem delete_plan_cascade_removes_items (db : DBState) (P : PlanRow)
    (hP : P ∈ db.plans) :
    (delete_plan db false P.id).1 = .ok () ∧
    (∀ rf, get_plan (delete_plan db false P.id).2 false rf P.id = .error .notFound) ∧
    ∀ it ∈ (delete_plan db false P.id).2.items, it.plan_id ≠ P.id := by
  have hmem : P ∈ db.plans.filter (fun r => r.id == P.id) := by
    simp [List.mem_filter, hP]
  have hne : db.plans.filter (fun r => r.id == P.id) ≠ [] := by
    intro h; rw [h] at hmem; simp at hmem
  have hdel : ((db.plans.filter (fun r => r.id == P.id)).length == 0) = false := by
    rcases h : db.plans.filter (fun r => r.id == P.id) with _ | ⟨a, tl⟩
    · exact absurd h hne
    · rw [h]; rfl
  have hsnd : (delete_plan db false P.id).2 =
      { db with
        plans := db.plans.filter (fun r => !(r.id == P.id)),
        items := cascadeItems (db.plans.filter (fun r => r.id == P.id)) db.items } := by
    simp [delete_plan, hdel]
  refine ⟨?_, ?_, ?_⟩
  · simp [delete_plan, hdel]
  · intro rf
    have hfind : ((delete_plan db false P.id).2.plans.find?
        (fun r => r.id == P.id)) = none := by
      rw [hsnd, List.find?_eq_none]
      intro x hx
      have := List.mem_filter.mp hx
      simpa using this.2
    simp [get_plan, hfind]
  · intro it hit hplan
    rw [hsnd] at hit
    have hany : (db.plans.filter (fun r => r.id == P.id)).any
        (fun pl => pl.id == it.plan_id) = true := by
      rw [List.any_eq_true]
      exact ⟨P, hmem, by simp [hplan]⟩
    rw [cascadeItems] at hit
    have hmf := List.mem_filter.mp hit
    rw [hany] at hmf
    simp at hmf

/-! ## C2 -/

/-- C2: for an existing plan `plan_id` with no prior items, `add_plan_item`
followed by `get_plan plan_id` yields a plan whose items collection is exactly
the one inserted entry, whose `plan_id`, `entity_type`, `entity_id`,
`visit_date` and `notes` equal the inserted values (round-trip). -/
theorem add_plan_item_roundtrip (db : DBState) (plan_id : Int)
    (req : PlanItemRequest)
    (hex : fkParentExists db plan_id = true)
    (hnone : ∀ it ∈ db.items, it.plan_id ≠ plan_id) :
    ∃ item, (add_plan_item db false plan_id req).1 = .ok item ∧
      item.plan_id = plan_id ∧ item.entity_type = req.entity_type ∧
      item.entity_id = req.entity_id ∧ item.visit_date = req.visit_date ∧
      item.notes = req.notes ∧
      ∃ p, get_plan (add_plan_item db false plan_id req).2 false
            (fun _ => false) plan_id = .ok p ∧
        p.items = some [item] := by
  refine ⟨{ id := some db.next_item_rowid, plan_id := plan_id,
            entity_type := req.entity_type, entity_id := req.entity_id,
            visit_date := req.visit_date, notes := req.notes }, ?_,
          rfl, rfl, rfl, rfl, rfl, ?_⟩
  · simp [add_plan_item, hex]
  · have hsnd : (add_plan_item db false plan_id req).2 =
        { db with
          items := db.items ++ [{ id := db.next_item_rowid, plan_id := plan_id,
                                  entity_type := req.entity_type,
                                  entity_id := req.entity_id,
                                  visit_date := req.visit_date,
                                  notes := req.notes }],
          next_item_rowid := db.next_item_rowid + 1 } := by
      simp [add_plan_item, hex]
    have hfind : ∃ pr, db.plans.find? (fun r => r.id == plan_id) = some pr := by
      rw [fkParentExists, List.any_eq_true] at hex
      obtain ⟨r, hr, hrid⟩ := hex
      have hs : (db.plans.find? (fun r => r.id == plan_id)).isSome := by
        rw [List.find?_isSome]
        exact ⟨r, hr, hrid⟩
      exact Option.isSome_iff_exists.mp hs
    obtain ⟨pr, hpr⟩ := hfind
    have hfilter : db.items.filter (fun it => it.plan_id == plan_id) = [] := by
      rw [List.filter_eq_nil_iff]
      intro it hit
      simpa using hnone it hit
    have hget : get_plan (add_plan_item db false plan_id req).2 false
        (fun _ => false) plan_id =
        .ok { id := some pr.id, name := pr.name, start_date := pr.start_date,
              end_date := pr.end_date,
              items := some [{ id := some db.next_item_rowid, plan_id := plan_id,
                               entity_type := req.entity_type,
                               entity_id := req.entity_id,
                               visit_date := req.visit_date,
                               notes := req.notes }] } := by
      rw [hsnd]
      simp [get_plan, hpr, List.filter_append, hfilter,
            readRows_all_ok (fun _ => false) (fun _ => rfl), rowToPlanItem]
    exact ⟨_, hget, rfl⟩

/-! ## C3 -/

theorem map_if_no_match {α : Type} (p : α → Bool) (f : α → α) (l : List α)
    (h : ∀ a ∈ l, p a = false) :
    l.map (fun a => if p a then f a else a) = l := by
  induction l with
  | nil => rfl
  | cons a tl ih =>
      have ha := h a (List.mem_cons_self a tl)
      simp only [List.map_cons, ha, Bool.false_eq_true, if_false,
        ih (fun x hx => h x (List.mem_cons_of_mem a hx))]

/-- C3: `update_plan_item` and `delete_plan_item` match on both `item_id` and
`plan_id` jointly: when no stored row matches the pair — including when the
item id belongs to an item of a different plan — both fail with NotFound and
leave the database unmodified; when some row matches the pair, both succeed. -/
theorem plan_item_dual_key_match (db : DBState) (plan_id item_id : Int)
    (req : PlanItemRequest) :
    (db.items.filter (fun r => r.id == item_id && r.plan_id == plan_id) = [] →
      update_plan_item db false plan_id item_id req = (.error .notFound, db) ∧
      delete_plan_item db false plan_id item_id = (.error .notFound, db)) ∧
    (db.items.filter (fun r => r.id == item_id && r.plan_id == plan_id) ≠ [] →
      (∃ it, (update_plan_item db false plan_id item_id req).1 = .ok it) ∧
      (delete_plan_item db false plan_id item_id).1 = .ok ()) := by
  constructor
  · intro hnil
    have hpred : ∀ r ∈ db.items, (r.id == item_id && r.plan_id == plan_id) = false := by
      intro r hr
      by_contra hc
      have : r ∈ db.items.filter (fun r => r.id == item_id && r.plan_id == plan_id) := by
        rw [List.mem_filter]
        exact ⟨hr, by revert hc; cases (r.id == item_id && r.plan_id == plan_id) <;> simp⟩
      rw [hnil] at this
      simp at this
    have hmap : db.items.map (fun r =>
        if r.id == item_id && r.plan_id == plan_id then
          { r with entity_type := req.entity_type, entity_id := req.entity_id,
                   visit_date := req.visit_date, notes := req.notes }
        else r) = db.items :=
      map_if_no_match _ _ _ hpred
    have hfil : db.items.filter (fun r =>
        !(r.id == item_id && r.plan_id == plan_id)) = db.items := by
      rw [List.filter_eq_self]
      intro a ha
      rw [hpred a ha]
      rfl
    constructor
    · simp only [update_plan_item, Bool.false_eq_true, if_false, hnil,
        List.length_nil, hmap]
      rfl
    · simp only [delete_plan_item, Bool.false_eq_true, if_false, hnil,
        List.length_nil, hfil]
      rfl
  · intro hne
    have hlen : ((db.items.filter
        (fun r => r.id == item_id && r.plan_id == plan_id)).length == 0) = false := by
      rcases h : db.items.filter (fun r => r.id == item_id && r.plan_id == plan_id) with
        _ | ⟨a, tl⟩
      · exact absurd h hne
      · rw [h]; rfl
    have hupd : (update_plan_item db false plan_id item_id req).1 =
        .ok { id := some item_id, plan_id := plan_id,
              entity_type := req.entity_type, entity_id := req.entity_id,
              visit_date := req.visit_date, notes := req.notes } := by
      simp only [update_plan_item, Bool.false_eq_true, if_false, hlen]
    have hdelr : (delete_plan_item db false plan_id item_id).1 = .ok () := by
      simp only [delete_plan_item, Bool.false_eq_true, if_false, hlen]
    exact ⟨⟨_, hupd⟩, hdelr⟩

/-! ## C4 -/

/-- C4: for every query string, `search_entities` (with no sub-query failure)
returns exactly the place hits tagged "place", then the accommodation hits
tagged "accommodation", then the restaurant hits tagged "restaurant",
concatenated in that fixed order, where a hit is a row whose name or
description contains the query as a substring; each segment keeps the storage
order of its table (filter preserves list order). -/
theorem search_entities_order_and_tags (st : Stores) (q : String) :
    search_entities st (fun _ => false) q =
      .ok ((st.places.filter (likeMatch q)).map (tagWith "place") ++
           (st.accommodations.filter (likeMatch q)).map (tagWith "accommodation") ++
           (st.restaurants.filter (likeMatch q)).map (tagWith "restaurant")) := by
  simp [search_entities]

/-! ## C5 -/

/-- C5: if any one of search's three sub-queries fails to prepare or execute,
the whole search aborts and surfaces `persistenceError` — no partial result
set from the sub-queries that succeeded is returned. -/
theorem search_entities_all_or_nothing (st : Stores) (failAt : Nat → Bool)
    (q : String) (h : failAt 0 = true ∨ failAt 1 = true ∨ failAt 2 = true) :
    search_entities st failAt q = .error .persistenceError := by
  by_cases h0 : failAt 0 = true
  · simp [search_entities, h0]
  · by_cases h1 : failAt 1 = true
    · simp [search_entities, h0, h1]
    · rcases h with h | h | h
      · exact absurd h h0
      · exact absurd h h1
      · simp [search_entities, h0, h1, h]

/-! ## C6 -/

/-- C6: `get_plan` fails with NotFound exactly when no plan row matches the
id (absent an external query failure); on success it returns the plan with
items populated — possibly empty — from the `plan_items` rows with this
`plan_id`, and a failure decoding an individual item row is skipped rather
than aborting the fetch: the plan is still returned with the remaining items
(all of them when no row decode fails). -/
theorem get_plan_notfound_and_partial_items (db : DBState) (rowFail : Nat → Bool)
    (plan_id : Int) :
    (db.plans.find? (fun r => r.id == plan_id) = none →
      get_plan db false rowFail plan_id = .error .notFound) ∧
    (∀ pr, db.plans.find? (fun r => r.id == plan_id) = some pr →
      ∃ its, get_plan db false rowFail plan_id =
          .ok { id := some pr.id, name := pr.name, start_date := pr.start_date,
                end_date := pr.end_date, items := some its } ∧
        its.Sublist ((db.items.filter (fun it => it.plan_id == plan_id)).map
          rowToPlanItem) ∧
        ((∀ i, rowFail i = false) →
          its = (db.items.filter (fun it => it.plan_id == plan_id)).map
            rowToPlanItem)) := by
  constructor
  · intro hnone
    simp [get_plan, hnone]
  · intro pr hpr
    refine ⟨readRows rowFail 0
        ((db.items.filter (fun it => it.plan_id == plan_id)).map rowToPlanItem),
      ?_, readRows_sublist _ _ _, fun hf => readRows_all_ok _ hf _ _⟩
    simp [get_plan, hpr]

/-! ## C7 -/

/-- An empty database, as right after schema initialization. -/
def emptyDB : DBState :=
  { plans := [], items := [], next_plan_rowid := 1, next_item_rowid := 1 }

/-- A create-plan request body that supplies an `items` collection. -/
def reqWithItems : TravelPlan :=
  { id := none, name := "Trip", start_date := none, end_date := none,
    items := some [{ id := none, plan_id := 1, entity_type := "place",
                     entity_id := 7, visit_date := none, notes := none }] }

/-- C7 counterexample: creating a plan from a request body that supplies an
items collection succeeds, but the returned plan's `items` field is that
collection rather than absent — `add_plan` echoes the request body back after
setting only `id`, so the response does depend on whether the caller supplied
items. -/
theorem add_plan_echoes_request_items_cex :
    (add_plan emptyDB false reqWithItems).1 =
      .ok { id := some 1, name := "Trip", start_date := none, end_date := none,
            items := some [{ id := none, plan_id := 1, entity_type := "place",
                             entity_id := 7, visit_date := none, notes := none }] } ∧
    some [({ id := none, plan_id := 1, entity_type := "place", entity_id := 7,
             visit_date := none, notes := none } : PlanItem)] ≠
      (none : Option (List PlanItem)) := by
  constructor
  · rfl
  · simp

/-- C7 amended: on success `add_plan` returns a plan carrying the
storage-assigned id and the request's name and dates, with the request's
`items` field echoed unchanged (so items are absent exactly when the request
omitted them); on insert rejection it fails with `persistenceError` and
leaves the database unchanged. -/
theorem add_plan_assigns_id_echoes_body (db : DBState) (ef : Bool)
    (plan : TravelPlan) :
    (ef = true → add_plan db ef plan = (.error .persistenceError, db)) ∧
    (ef = false → ∃ p db', add_plan db ef plan = (.ok p, db') ∧
      p.id = some db.next_plan_rowid ∧ p.name = plan.name ∧
      p.start_date = plan.start_date ∧ p.end_date = plan.end_date ∧
      p.items = plan.items) := by
  constructor
  · intro h
    simp [add_plan, h]
  · intro h
    subst h
    exact ⟨{ plan with id := some db.next_plan_rowid }, _, rfl, rfl, rfl, rfl, rfl, rfl⟩

/-! ## C8 -/

/-- C8: when the statement executes without error, each of the four mutate
operations (`update_plan`, `delete_plan`, `update_plan_item`,
`delete_plan_item`) returns NotFound exactly when the statement affected zero
rows, and succeeds otherwise — the affected-row count is the sole not-found
signal on these paths. -/
theorem mutate_notfound_iff_zero_affected (db : DBState) (plan_id item_id : Int)
    (planReq : TravelPlan) (itemReq : PlanItemRequest) :
    ((update_plan db false plan_id planReq).1 = .error .notFound ↔
      (db.plans.filter (fun r => r.id == plan_id)).length = 0) ∧
    ((db.plans.filter (fun r => r.id == plan_id)).length ≠ 0 →
      ∃ p, (update_plan db false plan_id planReq).1 = .ok p) ∧
    ((delete_plan db false plan_id).1 = .error .notFound ↔
      (db.plans.filter (fun r => r.id == plan_id)).length = 0) ∧
    ((db.plans.filter (fun r => r.id == plan_id)).length ≠ 0 →
      (delete_plan db false plan_id).1 = .ok ()) ∧
    ((update_plan_item db false plan_id item_id itemReq).1 = .error .notFound ↔
      (db.items.filter (fun r => r.id == item_id && r.plan_id == plan_id)).length
        = 0) ∧
    ((db.items.filter (fun r => r.id == item_id && r.plan_id == plan_id)).length
        ≠ 0 →
      ∃ it, (update_plan_item db false plan_id item_id itemReq).1 = .ok it) ∧
    ((delete_plan_item db false plan_id item_id).1 = .error .notFound ↔
      (db.items.filter (fun r => r.id == item_id && r.plan_id == plan_id)).length
        = 0) ∧
    ((db.items.filter (fun r => r.id == item_id && r.plan_id == plan_id)).length
        ≠ 0 →
      (delete_plan_item db false plan_id item_id).1 = .ok ()) := by
  by_cases hp : (db.plans.filter (fun r => r.id == plan_id)).length = 0 <;>
    by_cases hi : (db.items.filter
      (fun r => r.id == item_id && r.plan_id == plan_id)).length = 0 <;>
    refine ⟨?_, ?_, ?_, ?_, ?_, ?_, ?_, ?_⟩ <;>
    simp [update_plan, delete_plan, update_plan_item, delete_plan_item, hp, hi]

/-! ## C9 -/

/-- C9: adding an item under a `plan_id` that references no existing plan
fails with the generic `persistenceError` (not NotFound, not a dedicated
parent-not-found error) and leaves the database unchanged: no `plan_items`
row is created. -/
theorem add_plan_item_missing_parent (db : DBState) (plan_id : Int)
    (req : PlanItemRequest) (h : fkParentExists db plan_id = false) :
    add_plan_item db false plan_id req = (.error .persistenceError, db) := by
  simp [add_plan_item, h]

/-! ## C10 -/

/-- C10: every successful `update_plan_item` response is constructed entirely
from the call's inputs — `id = item_id`, `plan_id = plan_id`, and
`entity_type`, `entity_id`, `visit_date`, `notes` copied from the request —
with no re-read of the stored row, so the response body always equals the
request fields exactly. -/
theorem update_plan_item_response_from_inputs (db : DBState)
    (plan_id item_id : Int) (req : PlanItemRequest) (ef : Bool)
    (it : PlanItem) (db' : DBState)
    (h : update_plan_item db ef plan_id item_id req = (.ok it, db')) :
    it = { id := some item_id, plan_id := plan_id,
           entity_type := req.entity_type, entity_id := req.entity_id,
           visit_date := req.visit_date, notes := req.notes } := by
  simp only [update_plan_item] at h
  split at h
  · simp at h
  · split at h
    · simp at h
    · rw [Prod.mk.injEq] at h
      have := h.1
      injection this with hv
      exact hv.symm

/-! ## Concrete fixtures for witnesses -/

/-- A database holding plan 1 ("Trip") with one item (item 1: place 7). -/
def wDB : DBState :=
  { plans := [{ id := 1, name := "Trip", start_date := some "2024-01-01",
                end_date := some "2024-01-05" }],
    items := [{ id := 1, plan_id := 1, entity_type := "place", entity_id := 7,
                visit_date := none, notes := some "see fountain" }],
    next_plan_rowid := 2, next_item_rowid := 2 }

/-- A database holding plan 1 ("Trip") with no items yet. -/
def wDB2 : DBState :=
  { plans := [{ id := 1, name := "Trip", start_date := none, end_date := none }],
    items := [], next_plan_rowid := 2, next_item_rowid := 1 }

/-- A plan-item request body. -/
def wReq : PlanItemRequest :=
  { entity_type := "place", entity_id := 7, visit_date := none,
    notes := some "see fountain" }

/-- A second plan-item request body with different field values. -/
def wReq2 : PlanItemRequest :=
  { entity_type := "restaurant", entity_id := 20,
    visit_date := some "2024-01-02", notes := none }

/-- A plan-update request body. -/
def wPlanReq : TravelPlan :=
  { id := none, name := "Updated Adventure Plan", start_date := some "2024-07-01",
    end_date := some "2024-07-07", items := none }

/-- Three leaf-entity tables with lake-themed rows. -/
def wStores : Stores :=
  { places := [{ id := 1, name := "Lake View Cabin",
                 description := some "cabin by the lake", location := none },
               { id := 2, name := "Lakeside Cafe", description := none,
                 location := some "shore" }],
    accommodations := [{ id := 3, name := "City Hotel",
                         description := some "near the lake", location := none }],
    restaurants := [{ id := 4, name := "Lakeside Cafe", description := none,
                      location := none }] }

/-! ## Witnesses -/

/-- C1 witness at a concrete database: plan 1 is present; deleting it
succeeds, the subsequent fetch is NotFound, and its item is gone. -/
theorem delete_plan_cascade_removes_items_witness :
    ({ id := 1, name := "Trip", start_date := some "2024-01-01",
       end_date := some "2024-01-05" } : PlanRow) ∈ wDB.plans ∧
    (delete_plan wDB false 1).1 = .ok () ∧
    get_plan (delete_plan wDB false 1).2 false (fun _ => false) 1 =
      .error .notFound :=
  ⟨by decide,
   (delete_plan_cascade_removes_items wDB
     { id := 1, name := "Trip", start_date := some "2024-01-01",
       end_date := some "2024-01-05" } (by decide)).1,
   (delete_plan_cascade_removes_items wDB
     { id := 1, name := "Trip", start_date := some "2024-01-01",
       end_date := some "2024-01-05" } (by decide)).2.1 (fun _ => false)⟩

/-- C2 witness at a concrete database: plan 1 exists with no items, and the
insert/fetch round-trip returns exactly the inserted entry. -/
theorem add_plan_item_roundtrip_witness :
    fkParentExists wDB2 1 = true ∧ (∀ it ∈ wDB2.items, it.plan_id ≠ (1 : Int)) ∧
    ∃ item, (add_plan_item wDB2 false 1 wReq).1 = .ok item ∧
      item.plan_id = 1 ∧ item.entity_type = wReq.entity_type ∧
      item.entity_id = wReq.entity_id ∧ item.visit_date = wReq.visit_date ∧
      item.notes = wReq.notes ∧
      ∃ p, get_plan (add_plan_item wDB2 false 1 wReq).2 false
            (fun _ => false) 1 = .ok p ∧
        p.items = some [item] :=
  ⟨by decide, by decide, add_plan_item_roundtrip wDB2 1 wReq (by decide) (by decide)⟩

/-- C3 witness at a concrete database: item 1 belongs to plan 1, so the pair
(plan 2, item 1) matches no row and both mutations are NotFound with the
database unchanged. -/
theorem plan_item_dual_key_match_witness :
    update_plan_item wDB false 2 1 wReq = (.error .notFound, wDB) ∧
    delete_plan_item wDB false 2 1 = (.error .notFound, wDB) :=
  (plan_item_dual_key_match wDB 2 1 wReq).1 (by decide)

/-- C5 witness at a concrete store: with every sub-query failing, the search
surfaces `persistenceError`. -/
theorem search_entities_all_or_nothing_witness :
    search_entities wStores (fun _ => true) "Lake" = .error .persistenceError :=
  search_entities_all_or_nothing wStores (fun _ => true) "Lake" (Or.inl rfl)

/-- C6 witness at a concrete database: no plan matches id 99, and the fetch
is NotFound. -/
theorem get_plan_notfound_and_partial_items_witness :
    get_plan wDB false (fun _ => false) 99 = .error .notFound :=
  (get_plan_notfound_and_partial_items wDB (fun _ => false) 99).1 (by decide)

/-- C7 witness at a concrete input: with the insert accepted, the created
plan carries the assigned id and echoes the request's fields, items
included. -/
theorem add_plan_assigns_id_echoes_body_witness :
    ∃ p db', add_plan emptyDB false reqWithItems = (.ok p, db') ∧
      p.id = some emptyDB.next_plan_rowid ∧ p.name = reqWithItems.name ∧
      p.start_date = reqWithItems.start_date ∧
      p.end_date = reqWithItems.end_date ∧
      p.items = reqWithItems.items :=
  (add_plan_assigns_id_echoes_body emptyDB false reqWithItems).2 rfl

/-- C8 witness at a concrete database: one row matches plan id 1, so the
update succeeds. -/
theorem mutate_notfound_iff_zero_affected_witness :
    ∃ p, (update_plan wDB false 1 wPlanReq).1 = .ok p :=
  (mutate_notfound_iff_zero_affected wDB 1 1 wPlanReq wReq).2.1 (by decide)

/-- C9 witness at a concrete input: no plan has id 999, so adding an item
under it fails with `persistenceError` and the database is unchanged. -/
theorem add_plan_item_missing_parent_witness :
    add_plan_item emptyDB false 999 wReq = (.error .persistenceError, emptyDB) :=
  add_plan_item_missing_parent emptyDB 999 wReq (by decide)

/-- C10 witness at a concrete input: the successful update of item 1 under
plan 1 returns exactly the request's fields. -/
theorem update_plan_item_response_from_inputs_witness :
    update_plan_item wDB false 1 1 wReq2 =
      (.ok { id := some 1, plan_id := 1, entity_type := "restaurant",
             entity_id := 20, visit_date := some "2024-01-02", notes := none },
       { wDB with items := [{ id := 1, plan_id := 1, entity_type := "restaurant",
                              entity_id := 20, visit_date := some "2024-01-02",
                              notes := none }] }) ∧
    ({ id := some 1, plan_id := 1, entity_type := "restaurant", entity_id := 20,
       visit_date := some "2024-01-02", notes := none } : PlanItem) =
    { id := some 1, plan_id := 1, entity_type := wReq2.entity_type,
      entity_id := wReq2.entity_id, visit_date := wReq2.visit_date,
      notes := wReq2.notes } :=
  ⟨rfl,
   update_plan_item_response_from_inputs wDB 1 1 wReq2 false
     { id := some 1, plan_id := 1, entity_type := "restaurant", entity_id := 20,
       visit_date := some "2024-01-02", notes := none }
     { wDB with items := [{ id := 1, plan_id := 1, entity_type := "restaurant",
                            entity_id := 20, visit_date := some "2024-01-02",
                            notes := none }] }
     rfl⟩
